import Mathlib

/-!
# Verification of the invoice-parser front-end

Shallow embedding of the browser-side JavaScript of the invoice-parser
application: the vendor normalizers (`EyelevelAPI.normalizeInvoice`,
`LlamaCloudAPI.normalizeInvoice` with their shared helper
`extractFromDesc`), the Zoho Books formatting and guard logic
(`ZohoAPI.formatVendorBillData`, `ZohoAPI.createVendorBill`), and the
upload / polling control flow of `main.js` (`handleInvoiceUpload`,
`createVendorBill`, the status poll loop).

Modelling conventions:
* JSON/JS fields that may be `null` or `undefined` are `Option` values
  (`none` stands for both nullish cases, exactly what `??` and `||` see).
* Numeric JS values (`parseFloat` results) are modelled as `Rat`; the
  claims under verification only copy and default numbers, they never
  perform float arithmetic, so rationals are a faithful carrier.
* A JavaScript regular expression used via `desc.match(regex)` followed
  by `match?.[1]` is abstracted as a capture function
  `String → Option String` returning the first capture group of the
  first match (`none` when the regex does not match).
* Effectful DOM/network code is embedded as a pure function producing a
  trace (a `List` of effect markers) or as an explicit state-transition
  system driven by events.
-/

namespace InvoiceParser

/-- A JS primitive value as it can appear in an id position:
`null`, `undefined`, a number or a string. -/
inductive JSPrim where
  | jNull : JSPrim
  | jUndef : JSPrim
  | jNum : Rat → JSPrim
  | jStr : String → JSPrim
deriving DecidableEq

/-- JS truthiness of a primitive: `null`, `undefined`, `0` and `""` are
falsy, every other number or string is truthy. -/
def JSPrim.truthy : JSPrim → Bool
  | .jNull => false
  | .jUndef => false
  | .jNum n => if n = 0 then false else true
  | .jStr s => if s = "" then false else true

/-- JS truthiness of a string-or-nullish value (`undefined`, `null` and
the empty string are falsy). -/
def strTruthy : Option String → Bool
  | none => false
  | some s => if s = "" then false else true

/-- Embedding of `v || d` for a string-or-nullish `v` with string
default `d`: the value itself when truthy, the default otherwise. -/
def strOr (v : Option String) (d : String) : String :=
  match v with
  | none => d
  | some s => if s = "" then d else s

/-- Embedding of `a || b` where both sides are string-or-null values
(used for `item.project_number || this.extractFromDesc(...)`). -/
def orElseStr (a b : Option String) : Option String :=
  match a with
  | none => b
  | some s => if s = "" then b else some s

/-- Embedding of `parseFloat(v || d)` for a number-or-missing `v`:
`0` is falsy in JS, so a present `0` also falls back to the default. -/
def numOr (v : Option Rat) (d : Rat) : Rat :=
  match v with
  | none => d
  | some x => if x = 0 then d else x

/-- Abstraction of a JS regex used as `desc.match(regex)` + `match?.[1]`:
a function from the subject string to the first capture group of the
first match, `none` when there is no match. -/
abbrev Matcher := String → Option String

/-- One raw OCR line item as both vendors return it (every field may be
absent). -/
structure RawLineItem where
  description : Option String
  project_number : Option String
  project_name : Option String
  activity_code : Option String
  quantity : Option Rat
  unit_price : Option Rat
  amount : Option Rat
  tax : Option Rat
deriving DecidableEq

/-- The nested `vendor` object of an Eyelevel response. -/
structure RawVendor where
  name : Option String
deriving DecidableEq

/-- Raw Eyelevel.ai response shape read by `EyelevelAPI.normalizeInvoice`:
`vendor?.name`, `invoice_number`, `date`, `due_date`, `total_amount`,
`line_items` (`none` models a missing or non-array `line_items`). -/
structure RawEyelevelInvoice where
  vendor : Option RawVendor
  invoice_number : Option String
  date : Option String
  due_date : Option String
  total_amount : Option Rat
  line_items : Option (List RawLineItem)
deriving DecidableEq

/-- Raw LlamaCloud response shape read by `LlamaCloudAPI.normalizeInvoice`
(`none` for `line_items` models a missing or non-array value). -/
structure RawLlamaInvoice where
  vendor_name : Option String
  invoice_number : Option String
  invoice_date : Option String
  due_date : Option String
  total_amount : Option Rat
  line_items : Option (List RawLineItem)
deriving DecidableEq

/-- Canonical normalized line item produced by both vendors'
`normalizeInvoice`: exactly the fields `description`, `project_number`,
`project_name`, `activity_code`, `quantity`, `unit_price`, `amount`,
`tax`, the last four numeric.  `project_number` and `activity_code` can
be `null` (the regex fallback can fail), hence `Option String`. -/
structure LineItem where
  description : String
  project_number : Option String
  project_name : String
  activity_code : Option String
  quantity : Rat
  unit_price : Rat
  amount : Rat
  tax : Rat
deriving DecidableEq

/-- Canonical normalized invoice produced by both vendors'
`normalizeInvoice`: exactly the fields `vendor_name`, `invoice_number`,
`invoice_date`, `due_date`, `total_amount`, `line_items`. -/
structure Invoice where
  vendor_name : Option String
  invoice_number : Option String
  invoice_date : Option String
  due_date : Option String
  total_amount : Rat
  line_items : List LineItem
deriving DecidableEq

namespace EyelevelAPI

/-- `EyelevelAPI.extractFromDesc`: returns `null` for a missing or empty
description, otherwise the first capture group of the first match,
defaulted to `null` through `match?.[1] || null`. -/
def extractFromDesc (desc : Option String) (regex : Matcher) : Option String :=
  match desc with
  | none => none
  | some s =>
    if s = "" then none
    else
      match regex s with
      | none => none
      | some g => if g = "" then none else some g

/-- Per-item body of the `line_items.map` in
`EyelevelAPI.normalizeInvoice`; `pn` stands for the hard-coded regex
`/PN:?\s*(\d+)/`. -/
def normalizeLineItem (pn : Matcher) (item : RawLineItem) : LineItem :=
  { description := strOr item.description ""
    project_number := orElseStr item.project_number (extractFromDesc item.description pn)
    project_name := strOr item.project_name ""
    activity_code := some (strOr item.activity_code "")
    quantity := numOr item.quantity 1
    unit_price := numOr item.unit_price 0
    amount := numOr item.amount 0
    tax := numOr item.tax 0 }

/-- `EyelevelAPI.normalizeInvoice`, parametrised by the capture function
`pn` of the hard-coded project-number regex. -/
def normalizeInvoice (pn : Matcher) (d : RawEyelevelInvoice) : Invoice :=
  { vendor_name := d.vendor.bind RawVendor.name
    invoice_number := d.invoice_number
    invoice_date := d.date
    due_date := d.due_date
    total_amount := numOr d.total_amount 0
    line_items :=
      match d.line_items with
      | none => []
      | some items => items.map (normalizeLineItem pn) }

/-- Keys of the invoice object literal built by
`EyelevelAPI.normalizeInvoice`, in source order. -/
def invoiceFieldNames : List String :=
  ["vendor_name", "invoice_number", "invoice_date", "due_date",
   "total_amount", "line_items"]

/-- Keys of the per-item object literal built inside
`EyelevelAPI.normalizeInvoice`, in source order. -/
def lineItemFieldNames : List String :=
  ["description", "project_number", "project_name", "activity_code",
   "quantity", "unit_price", "amount", "tax"]

end EyelevelAPI

namespace LlamaCloudAPI

/-- `LlamaCloudAPI.extractFromDesc` (textually identical to the Eyelevel
helper): `null` for missing/empty description, else first capture group
of the first match, defaulted to `null` through `match?.[1] || null`. -/
def extractFromDesc (desc : Option String) (regex : Matcher) : Option String :=
  match desc with
  | none => none
  | some s =>
    if s = "" then none
    else
      match regex s with
      | none => none
      | some g => if g = "" then none else some g

/-- Per-item body of the `line_items.map` in
`LlamaCloudAPI.normalizeInvoice`; `pr` stands for the project-number
regex and `ac` for the activity-code regex hard-coded in the source. -/
def normalizeLineItem (pr ac : Matcher) (item : RawLineItem) : LineItem :=
  { description := strOr item.description ""
    project_number := orElseStr item.project_number (extractFromDesc item.description pr)
    project_name := strOr item.project_name ""
    activity_code := orElseStr item.activity_code (extractFromDesc item.description ac)
    quantity := numOr item.quantity 1
    unit_price := numOr item.unit_price 0
    amount := numOr item.amount 0
    tax := numOr item.tax 0 }

/-- `LlamaCloudAPI.normalizeInvoice`, parametrised by the capture
functions of the two hard-coded regexes. -/
def normalizeInvoice (pr ac : Matcher) (d : RawLlamaInvoice) : Invoice :=
  { vendor_name := d.vendor_name
    invoice_number := d.invoice_number
    invoice_date := d.invoice_date
    due_date := d.due_date
    total_amount := numOr d.total_amount 0
    line_items :=
      match d.line_items with
      | none => []
      | some items => items.map (normalizeLineItem pr ac) }

/-- Keys of the invoice object literal built by
`LlamaCloudAPI.normalizeInvoice`, in source order. -/
def invoiceFieldNames : List String :=
  ["vendor_name", "invoice_number", "invoice_date", "due_date",
   "total_amount", "line_items"]

/-- Keys of the per-item object literal built inside
`LlamaCloudAPI.normalizeInvoice`, in source order. -/
def lineItemFieldNames : List String :=
  ["description", "project_number", "project_name", "activity_code",
   "quantity", "unit_price", "amount", "tax"]

end LlamaCloudAPI

/-- One Zoho Books line item as built by `ZohoAPI.formatVendorBillData`:
`name`, `quantity`, `rate`, `tax`. -/
structure ZohoLineItem where
  name : String
  quantity : Rat
  rate : Rat
  tax : Rat
deriving DecidableEq

/-- The vendor-bill record built by `ZohoAPI.formatVendorBillData`:
`vendor_name`, `bill_number`, `date`, `due_date`, `total`,
`line_items`. -/
structure VendorBillData where
  vendor_name : Option String
  bill_number : Option String
  date : Option String
  due_date : Option String
  total : Rat
  line_items : List ZohoLineItem
deriving DecidableEq

/-- The fields of `invoiceData` that `ZohoAPI.formatVendorBillData`
reads.  `line_items` is `Option` because the source guards it with
`invoiceData.line_items && Array.isArray(invoiceData.line_items)`
(`none` models a missing or non-array value); a normalized `Invoice`
always supplies `some` (see `Invoice.toBillInput`). -/
structure BillInput where
  vendor_name : Option String
  invoice_number : Option String
  invoice_date : Option String
  due_date : Option String
  total_amount : Rat
  line_items : Option (List LineItem)
deriving DecidableEq

/-- View of a normalized invoice as input to
`ZohoAPI.formatVendorBillData`. -/
def Invoice.toBillInput (i : Invoice) : BillInput :=
  { vendor_name := i.vendor_name
    invoice_number := i.invoice_number
    invoice_date := i.invoice_date
    due_date := i.due_date
    total_amount := i.total_amount
    line_items := some i.line_items }

namespace ZohoAPI

/-- Per-item body of the `line_items.map` in
`ZohoAPI.formatVendorBillData`; `item.tax || 0` is a truthiness
default, embedded literally. -/
def formatZohoLineItem (item : LineItem) : ZohoLineItem :=
  { name := item.description
    quantity := item.quantity
    rate := item.unit_price
    tax := if item.tax = 0 then 0 else item.tax }

/-- `ZohoAPI.formatVendorBillData`. -/
def formatVendorBillData (invoiceData : BillInput) : VendorBillData :=
  { vendor_name := invoiceData.vendor_name
    bill_number := invoiceData.invoice_number
    date := invoiceData.invoice_date
    due_date := invoiceData.due_date
    total := invoiceData.total_amount
    line_items :=
      match invoiceData.line_items with
      | none => []
      | some items => items.map formatZohoLineItem }

/-- Outcome of `ZohoAPI.createVendorBill` up to the network boundary:
whether a POST to `/create_vendor_bill/<id>` was issued, and the
rejection message when the promise was rejected before any request. -/
structure CreateBillOutcome where
  requestSent : Bool
  rejection : Option String
deriving DecidableEq

/-- `ZohoAPI.createVendorBill`: rejects with `Invoice ID is required`
for a falsy `invoiceId` before any fetch, otherwise issues the POST. -/
def createVendorBill (invoiceId : JSPrim) : CreateBillOutcome :=
  if invoiceId.truthy = false then
    { requestSent := false, rejection := some "Invoice ID is required" }
  else
    { requestSent := true, rejection := none }

end ZohoAPI

/-- A DOM or network effect performed by the synchronous part of the
`main.js` handlers, in program order. -/
inductive UIEffect where
  | showStatus : String → String → UIEffect
  | showVendorBillStatus : String → String → UIEffect
  | resetProcessingUI : UIEffect
  | showProcessingSteps : UIEffect
  | setStepStatus : String → String → UIEffect
  | disableUploadButton : UIEffect
  | disableCreateButton : UIEffect
  | fetchUpload : UIEffect
  | fetchCreateVendorBill : UIEffect
deriving DecidableEq

/-- The two attributes of the selected `File` that
`handleInvoiceUpload` validates. -/
structure FileInfo where
  type : String
  size : Nat
deriving DecidableEq

/-- The accepted MIME types checked in `handleInvoiceUpload`. -/
def allowedFileTypes : List String :=
  ["application/pdf", "image/jpeg", "image/png"]

/-- The upload size limit checked in `handleInvoiceUpload`
(`16 * 1024 * 1024`). -/
def maxFileSizeBytes : Nat := 16 * 1024 * 1024

/-- Synchronous prefix of `handleInvoiceUpload` (up to and including
issuing the `/upload` fetch), as the trace of effects it performs for a
given selected file (`none` = no file chosen). -/
def handleInvoiceUploadSync (file : Option FileInfo) : List UIEffect :=
  match file with
  | none => [.showStatus "error" "Please select a file to upload."]
  | some f =>
    if (allowedFileTypes.contains f.type) = false then
      [.showStatus "error" "Invalid file type. Please upload a PDF, JPG, or PNG file."]
    else if maxFileSizeBytes < f.size then
      [.showStatus "error" "File size exceeds the limit of 16MB."]
    else
      [.resetProcessingUI, .showProcessingSteps,
       .setStepStatus "step-upload" "processing", .disableUploadButton,
       .showStatus "info" "Uploading invoice file...", .fetchUpload]

/-- Synchronous body of the UI-level `createVendorBill` in `main.js`
(up to and including the POST), as an effect trace driven by
`currentInvoiceId`. -/
def createVendorBillUI (currentInvoiceId : JSPrim) : List UIEffect :=
  if currentInvoiceId.truthy = false then
    [.showVendorBillStatus "error" "No invoice selected."]
  else
    [.setStepStatus "step-create" "processing", .disableCreateButton,
     .showVendorBillStatus "info" "Creating vendor bill in Zoho Books...",
     .fetchCreateVendorBill]

/-- The `invoice_data` object of a successful `/upload` response, as
read by `handleInvoiceUpload` (only its `status` matters). -/
structure UploadRespInvoice where
  status : Option String
deriving DecidableEq

/-- The `/upload` JSON response as read by `handleInvoiceUpload`. -/
structure UploadResp where
  success : Bool
  invoice_data : Option UploadRespInvoice
deriving DecidableEq

/-- What `handleInvoiceUpload` does with the `/upload` response:
display at once, start the status poll loop, or report failure. -/
inductive UploadDispatch where
  | displayImmediately : UploadDispatch
  | startPolling : UploadDispatch
  | uploadFailed : UploadDispatch
deriving DecidableEq

/-- Dispatch on the `/upload` response in `handleInvoiceUpload`:
polling starts exactly when the upload succeeded and
`data.invoice_data && data.invoice_data.status === 'parsed'` fails. -/
def handleUploadResponse (d : UploadResp) : UploadDispatch :=
  if d.success then
    match d.invoice_data with
    | some inv => if inv.status = some "parsed" then .displayImmediately else .startPolling
    | none => .startPolling
  else .uploadFailed

/-- `maxPolls` constant of the poll loop in `handleInvoiceUpload`. -/
def maxPolls : Nat := 20

/-- Poll period of the loop in `handleInvoiceUpload`, in milliseconds
(`setInterval(..., 3000)`). -/
def pollIntervalMs : Nat := 3000

/-- Client-side processing timeout in `handleInvoiceUpload`, in
milliseconds (`setTimeout(..., 60000)`). -/
def processingTimeoutMs : Nat := 60000

/-- State of the status poll loop started by `handleInvoiceUpload`:
the `pollCount` counter, whether `setInterval` / `setTimeout` are still
pending (`clearInterval` / `clearTimeout` or firing make them `false`),
the parse step marker and the kind of the last status message. -/
structure PollState where
  pollCount : Nat
  intervalActive : Bool
  timeoutActive : Bool
  parseStep : String
  statusKind : String
deriving DecidableEq

/-- Poll-loop state right after `handleInvoiceUpload` enters the
polling branch. -/
def initialPollState : PollState :=
  { pollCount := 0
    intervalActive := true
    timeoutActive := true
    parseStep := "processing"
    statusKind := "info" }

/-- An event delivered to the poll loop: one interval tick together
with the status its `/invoices/<id>` fetch observed (`none` models a
failed fetch, whose catch handler keeps polling), or the firing of the
60-second timeout. -/
inductive PollEvent where
  | tick : Option String → PollEvent
  | timeoutFire : PollEvent
deriving DecidableEq

/-- One step of the poll loop.  A tick is processed only while the
interval is pending (`clearInterval` stops further callbacks); it
increments `pollCount`, then the response handler stops on
`parsed`/`completed` (parse complete), on `error` (parse error) or once
`pollCount` reached `maxPolls` (parse error), clearing both the
interval and the timeout.  The timeout callback runs only if it was
never cleared; it clears the interval and marks the parse step as
error. -/
def pollStep (s : PollState) (e : PollEvent) : PollState :=
  match e with
  | .timeoutFire =>
    if s.timeoutActive then
      { s with intervalActive := false, timeoutActive := false,
               parseStep := "error", statusKind := "error" }
    else s
  | .tick resp =>
    if s.intervalActive then
      let c := s.pollCount + 1
      match resp with
      | none => { s with pollCount := c }
      | some status =>
        if status = "parsed" ∨ status = "completed" then
          { pollCount := c, intervalActive := false, timeoutActive := false,
            parseStep := "complete", statusKind := "success" }
        else if status = "error" then
          { pollCount := c, intervalActive := false, timeoutActive := false,
            parseStep := "error", statusKind := "error" }
        else if maxPolls ≤ c then
          { pollCount := c, intervalActive := false, timeoutActive := false,
            parseStep := "error", statusKind := "error" }
        else { s with pollCount := c }
    else s

/-- Run the poll loop over a sequence of events. -/
def runPoll (es : List PollEvent) : PollState :=
  es.foldl pollStep initialPollState

/-- Which OCR vendor produced a stored invoice. -/
inductive ParserUsed where
  | llamaCloud : ParserUsed
  | eyelevel : ParserUsed
deriving DecidableEq

/-- Outcome of one vendor call: a usable response object, a thrown
error, or a response of unusable shape. -/
inductive VendorOutcome (α : Type) where
  | ok : α → VendorOutcome α
  | thrown : VendorOutcome α
  | unusable : VendorOutcome α
deriving DecidableEq

/-- Modelled from the spec: the server-side `parse_invoice` procedure
(`utils.py`, not under `src/`) — "call vendor A; if it throws or
returns an unusable shape, call vendor B; map whichever response
arrived through a small field-rename/regex-extraction table; store the
result".  The mapping step is the vendors' `normalizeInvoice`, and the
stored result records which parser produced it. -/
def parseInvoiceWithFallback (pr ac pn : Matcher)
    (primary : VendorOutcome RawLlamaInvoice)
    (secondary : VendorOutcome RawEyelevelInvoice) :
    Option (Invoice × ParserUsed) :=
  match primary with
  | .ok d => some (LlamaCloudAPI.normalizeInvoice pr ac d, .llamaCloud)
  | _ =>
    match secondary with
    | .ok d => some (EyelevelAPI.normalizeInvoice pn d, .eyelevel)
    | _ => none

/-- Modelled from the spec: the sequence of vendor calls made by the
fallback procedure — the primary vendor is always called first, and the
secondary vendor is called exactly when the primary call throws or
returns an unusable shape. -/
def fallbackVendorCalls (primary : VendorOutcome RawLlamaInvoice) : List ParserUsed :=
  match primary with
  | .ok _ => [.llamaCloud]
  | _ => [.llamaCloud, .eyelevel]

/-- Badge text attached to `parser_used` by `displayInvoiceDetails`
(`LlamaCloud` is labelled `Primary`, `Eyelevel` is labelled
`Fallback`). -/
def parserBadge (parser_used : String) : Option String :=
  if parser_used = "LlamaCloud" then some "Primary"
  else if parser_used = "Eyelevel" then some "Fallback"
  else none

/-! ## Theorems -/

/-- C2: the invoice objects returned by `LlamaCloudAPI.normalizeInvoice`
and `EyelevelAPI.normalizeInvoice` have the identical set of top-level
field names and the identical set of per-line-item field names: the two
vendor-specific normalizers map both vendor shapes into one schema (in
this embedding both even target the single structures `Invoice` and
`LineItem`). -/
theorem claim_C2_unified_schema :
    EyelevelAPI.invoiceFieldNames = LlamaCloudAPI.invoiceFieldNames ∧
    EyelevelAPI.lineItemFieldNames = LlamaCloudAPI.lineItemFieldNames ∧
    EyelevelAPI.invoiceFieldNames.toFinset = LlamaCloudAPI.invoiceFieldNames.toFinset ∧
    EyelevelAPI.lineItemFieldNames.toFinset = LlamaCloudAPI.lineItemFieldNames.toFinset :=
  ⟨rfl, rfl, rfl, rfl⟩

/-- C5: for a selected file whose MIME type is not `application/pdf`,
`image/jpeg` or `image/png`, `handleInvoiceUpload` shows exactly the
error `Invalid file type. Please upload a PDF, JPG, or PNG file.` and
performs no other effect (in particular no upload request and no
processing-UI change); the `/upload` fetch is issued only for files of
the three accepted types. -/
theorem claim_C5_file_type_check :
    (∀ f : FileInfo, f.type ∉ allowedFileTypes →
      handleInvoiceUploadSync (some f) =
        [UIEffect.showStatus "error"
          "Invalid file type. Please upload a PDF, JPG, or PNG file."] ∧
      UIEffect.fetchUpload ∉ handleInvoiceUploadSync (some f) ∧
      UIEffect.resetProcessingUI ∉ handleInvoiceUploadSync (some f) ∧
      UIEffect.showProcessingSteps ∉ handleInvoiceUploadSync (some f)) ∧
    (∀ file : Option FileInfo, UIEffect.fetchUpload ∈ handleInvoiceUploadSync file →
      ∃ f, file = some f ∧ f.type ∈ allowedFileTypes) := by
  constructor
  · intro f h
    simp [handleInvoiceUploadSync, h]
  · intro file h
    match file with
    | none => simp [handleInvoiceUploadSync] at h
    | some f =>
      refine ⟨f, rfl, ?_⟩
      by_cases ht : f.type ∈ allowedFileTypes
      · exact ht
      · simp [handleInvoiceUploadSync, ht] at h

/-- Witness for C5 at a concrete rejected file. -/
theorem claim_C5_witness :
    handleInvoiceUploadSync (some ⟨"text/plain", 5⟩) =
      [UIEffect.showStatus "error"
        "Invalid file type. Please upload a PDF, JPG, or PNG file."] :=
  (claim_C5_file_type_check.1 ⟨"text/plain", 5⟩ (by decide)).1

/-- C8: for an accepted-type file larger than `16 * 1024 * 1024` bytes,
`handleInvoiceUpload` shows exactly the error
`File size exceeds the limit of 16MB.` and issues no upload request;
accepted-type files of size at most 16 MiB pass the check and reach the
`/upload` fetch. -/
theorem claim_C8_file_size_check :
    (∀ f : FileInfo, f.type ∈ allowedFileTypes →
      maxFileSizeBytes < f.size →
      handleInvoiceUploadSync (some f) =
        [UIEffect.showStatus "error" "File size exceeds the limit of 16MB."] ∧
      UIEffect.fetchUpload ∉ handleInvoiceUploadSync (some f)) ∧
    (∀ f : FileInfo, f.type ∈ allowedFileTypes →
      f.size ≤ maxFileSizeBytes →
      UIEffect.fetchUpload ∈ handleInvoiceUploadSync (some f)) := by
  constructor
  · intro f ht hs
    simp [handleInvoiceUploadSync, ht, hs]
  · intro f ht hs
    simp [handleInvoiceUploadSync, ht, Nat.not_lt.mpr hs]

/-- Witness for C8 at a concrete oversized PDF and a small PDF. -/
theorem claim_C8_witness :
    handleInvoiceUploadSync (some ⟨"application/pdf", 16 * 1024 * 1024 + 1⟩) =
      [UIEffect.showStatus "error" "File size exceeds the limit of 16MB."] ∧
    UIEffect.fetchUpload ∈ handleInvoiceUploadSync (some ⟨"application/pdf", 100⟩) :=
  ⟨(claim_C8_file_size_check.1 ⟨"application/pdf", 16 * 1024 * 1024 + 1⟩
      (by decide) (by norm_num [maxFileSizeBytes])).1,
   claim_C8_file_size_check.2 ⟨"application/pdf", 100⟩ (by decide)
      (by norm_num [maxFileSizeBytes])⟩

/-- C9: in both vendors' `normalizeInvoice`, a line item whose
`quantity` is `0` or missing is normalized to quantity `1` (the default
is applied through JS truthiness), while `unit_price`, `amount` and
`tax` equal to `0` are preserved as `0`; consequently no normalized
line item ever has quantity `0`. -/
theorem claim_C9_quantity_default (pn pr ac : Matcher) (item : RawLineItem) :
    ((item.quantity = none ∨ item.quantity = some 0) →
      (EyelevelAPI.normalizeLineItem pn item).quantity = 1 ∧
      (LlamaCloudAPI.normalizeLineItem pr ac item).quantity = 1) ∧
    (item.unit_price = some 0 →
      (EyelevelAPI.normalizeLineItem pn item).unit_price = 0 ∧
      (LlamaCloudAPI.normalizeLineItem pr ac item).unit_price = 0) ∧
    (item.amount = some 0 →
      (EyelevelAPI.normalizeLineItem pn item).amount = 0 ∧
      (LlamaCloudAPI.normalizeLineItem pr ac item).amount = 0) ∧
    (item.tax = some 0 →
      (EyelevelAPI.normalizeLineItem pn item).tax = 0 ∧
      (LlamaCloudAPI.normalizeLineItem pr ac item).tax = 0) ∧
    (EyelevelAPI.normalizeLineItem pn item).quantity ≠ 0 ∧
    (LlamaCloudAPI.normalizeLineItem pr ac item).quantity ≠ 0 := by
  refine ⟨?_, ?_, ?_, ?_, ?_, ?_⟩
  · rintro (h | h) <;>
      simp [EyelevelAPI.normalizeLineItem, LlamaCloudAPI.normalizeLineItem, numOr, h]
  · intro h
    simp [EyelevelAPI.normalizeLineItem, LlamaCloudAPI.normalizeLineItem, numOr, h]
  · intro h
    simp [EyelevelAPI.normalizeLineItem, LlamaCloudAPI.normalizeLineItem, numOr, h]
  · intro h
    simp [EyelevelAPI.normalizeLineItem, LlamaCloudAPI.normalizeLineItem, numOr, h]
  · show numOr item.quantity 1 ≠ 0
    cases hq : item.quantity with
    | none => simp [numOr]
    | some x =>
      by_cases hx : x = 0 <;> simp [numOr, hx]
  · show numOr item.quantity 1 ≠ 0
    cases hq : item.quantity with
    | none => simp [numOr]
    | some x =>
      by_cases hx : x = 0 <;> simp [numOr, hx]

/-- Witness for C9 at a concrete all-zero line item. -/
theorem claim_C9_witness :
    (EyelevelAPI.normalizeLineItem (fun _ => none)
      ⟨none, none, none, none, some 0, some 0, some 0, some 0⟩).quantity = 1 ∧
    (EyelevelAPI.normalizeLineItem (fun _ => none)
      ⟨none, none, none, none, some 0, some 0, some 0, some 0⟩).unit_price = 0 :=
  ⟨((claim_C9_quantity_default (fun _ => none) (fun _ => none) (fun _ => none)
      ⟨none, none, none, none, some 0, some 0, some 0, some 0⟩).1 (Or.inr rfl)).1,
   ((claim_C9_quantity_default (fun _ => none) (fun _ => none) (fun _ => none)
      ⟨none, none, none, none, some 0, some 0, some 0, some 0⟩).2.1 rfl).1⟩

/-- C7: `ZohoAPI.formatVendorBillData` copies `vendor_name`, maps
`invoice_number` to `bill_number`, `invoice_date` to `date`, copies
`due_date`, maps `total_amount` to `total`, and builds one Zoho line
item per invoice line item with `name` = `description`, `quantity`
copied, `rate` = `unit_price` and `tax` = the item's tax (defaulted to
`0` through `item.tax || 0`, which a normalized item always supplies);
when the input has no `line_items` array, `line_items` is empty.  A
normalized `Invoice` always enters the array branch. -/
theorem claim_C7_format_vendor_bill (d : BillInput) :
    (ZohoAPI.formatVendorBillData d).vendor_name = d.vendor_name ∧
    (ZohoAPI.formatVendorBillData d).bill_number = d.invoice_number ∧
    (ZohoAPI.formatVendorBillData d).date = d.invoice_date ∧
    (ZohoAPI.formatVendorBillData d).due_date = d.due_date ∧
    (ZohoAPI.formatVendorBillData d).total = d.total_amount ∧
    (d.line_items = none → (ZohoAPI.formatVendorBillData d).line_items = []) ∧
    (∀ xs, d.line_items = some xs →
      (ZohoAPI.formatVendorBillData d).line_items = xs.map ZohoAPI.formatZohoLineItem) ∧
    (∀ it : LineItem, ZohoAPI.formatZohoLineItem it =
      { name := it.description, quantity := it.quantity,
        rate := it.unit_price, tax := it.tax }) ∧
    (∀ i : Invoice, (Invoice.toBillInput i).line_items = some i.line_items) := by
  refine ⟨rfl, rfl, rfl, rfl, rfl, ?_, ?_, ?_, ?_⟩
  · intro h
    simp [ZohoAPI.formatVendorBillData, h]
  · intro xs h
    simp [ZohoAPI.formatVendorBillData, h]
  · intro it
    unfold ZohoAPI.formatZohoLineItem
    by_cases h : it.tax = 0 <;> simp [h]
  · intro i
    rfl

/-- Witness for C7 at a concrete normalized invoice. -/
theorem claim_C7_witness :
    (ZohoAPI.formatVendorBillData
      (Invoice.toBillInput
        { vendor_name := some "Acme", invoice_number := some "INV-1",
          invoice_date := some "2024-01-01", due_date := none,
          total_amount := 5,
          line_items := [{ description := "w", project_number := none,
                           project_name := "", activity_code := some "",
                           quantity := 1, unit_price := 5, amount := 5,
                           tax := 0 }] })).line_items =
      [{ name := "w", quantity := 1, rate := 5, tax := 0 }] := by
  have h := claim_C7_format_vendor_bill
    (Invoice.toBillInput
      { vendor_name := some "Acme", invoice_number := some "INV-1",
        invoice_date := some "2024-01-01", due_date := none,
        total_amount := 5,
        line_items := [{ description := "w", project_number := none,
                         project_name := "", activity_code := some "",
                         quantity := 1, unit_price := 5, amount := 5,
                         tax := 0 }] })
  rw [h.2.2.2.2.2.2.1 _ rfl]
  rfl

/-- C1: both `normalizeInvoice` functions return the canonical invoice
shape (the `Invoice` / `LineItem` structures of this file, whose fields
are exactly the six invoice keys and eight item keys, the last four per
item numeric): each scalar field is the source value or `null` when
absent (`vendor?.name`, `date` for Eyelevel; `vendor_name`,
`invoice_date` for LlamaCloud), `total_amount` is a number defaulting
to `0` when the source field is absent, and `line_items` is `[]` when
the source `line_items` is not an array and otherwise one normalized
record per source item. -/
theorem claim_C1_normalizers_canonical_shape (pn pr ac : Matcher)
    (dE : RawEyelevelInvoice) (dL : RawLlamaInvoice) :
    ((EyelevelAPI.normalizeInvoice pn dE).vendor_name = dE.vendor.bind RawVendor.name ∧
     (EyelevelAPI.normalizeInvoice pn dE).invoice_number = dE.invoice_number ∧
     (EyelevelAPI.normalizeInvoice pn dE).invoice_date = dE.date ∧
     (EyelevelAPI.normalizeInvoice pn dE).due_date = dE.due_date ∧
     (dE.total_amount = none → (EyelevelAPI.normalizeInvoice pn dE).total_amount = 0) ∧
     (dE.line_items = none → (EyelevelAPI.normalizeInvoice pn dE).line_items = []) ∧
     (∀ xs, dE.line_items = some xs →
       (EyelevelAPI.normalizeInvoice pn dE).line_items =
         xs.map (EyelevelAPI.normalizeLineItem pn))) ∧
    ((LlamaCloudAPI.normalizeInvoice pr ac dL).vendor_name = dL.vendor_name ∧
     (LlamaCloudAPI.normalizeInvoice pr ac dL).invoice_number = dL.invoice_number ∧
     (LlamaCloudAPI.normalizeInvoice pr ac dL).invoice_date = dL.invoice_date ∧
     (LlamaCloudAPI.normalizeInvoice pr ac dL).due_date = dL.due_date ∧
     (dL.total_amount = none → (LlamaCloudAPI.normalizeInvoice pr ac dL).total_amount = 0) ∧
     (dL.line_items = none → (LlamaCloudAPI.normalizeInvoice pr ac dL).line_items = []) ∧
     (∀ xs, dL.line_items = some xs →
       (LlamaCloudAPI.normalizeInvoice pr ac dL).line_items =
         xs.map (LlamaCloudAPI.normalizeLineItem pr ac))) ∧
    EyelevelAPI.invoiceFieldNames.length = 6 ∧
    EyelevelAPI.lineItemFieldNames.length = 8 := by
  refine ⟨⟨rfl, rfl, rfl, rfl, ?_, ?_, ?_⟩, ⟨rfl, rfl, rfl, rfl, ?_, ?_, ?_⟩, rfl, rfl⟩
  · intro h
    simp [EyelevelAPI.normalizeInvoice, numOr, h]
  · intro h
    simp [EyelevelAPI.normalizeInvoice, h]
  · intro xs h
    simp [EyelevelAPI.normalizeInvoice, h]
  · intro h
    simp [LlamaCloudAPI.normalizeInvoice, numOr, h]
  · intro h
    simp [LlamaCloudAPI.normalizeInvoice, h]
  · intro xs h
    simp [LlamaCloudAPI.normalizeInvoice, h]

/-- Witness for C1 at a concrete empty Eyelevel response. -/
theorem claim_C1_witness :
    (EyelevelAPI.normalizeInvoice (fun _ => none)
      ⟨none, none, none, none, none, none⟩).total_amount = 0 ∧
    (EyelevelAPI.normalizeInvoice (fun _ => none)
      ⟨none, none, none, none, none, none⟩).line_items = [] := by
  have h := claim_C1_normalizers_canonical_shape (fun _ => none) (fun _ => none)
    (fun _ => none) ⟨none, none, none, none, none, none⟩
    ⟨none, none, none, none, none, none⟩
  exact ⟨h.1.2.2.2.2.1 rfl, h.1.2.2.2.2.2.1 rfl⟩

/-- C6, counterexample: the universal claim that `extractFromDesc`
returns the first capture group whenever the pattern matches is
falsified by the truthiness default in `match?.[1] || null`: a regex
that matches with an *empty* first capture group makes
`extractFromDesc` return `null`, not the capture group.  Here the
capture function (standing for a regex such as `/x(y*)/` on subject
`"x"`) matches `"x"` with capture `""`, yet `extractFromDesc` returns
`none`. -/
theorem claim_C6_counterexample :
    (fun (_ : String) => some "") "x" = some "" ∧
    EyelevelAPI.extractFromDesc (some "x") (fun _ => some "") = none ∧
    LlamaCloudAPI.extractFromDesc (some "x") (fun _ => some "") = none :=
  ⟨rfl, rfl, rfl⟩

/-- C6 amended: `extractFromDesc` (in both classes, which carry the
identical helper) returns `null` when the description is empty or
missing; when the pattern matches it returns the first capture group if
that capture is nonempty and `null` when the capture is empty; it
returns `null` when there is no match.  During normalization the regex
result is consulted for a line item's `project_number` (and, for
LlamaCloud, `activity_code`) exactly when that field is itself missing
or empty: when the field is truthy the choice of regex is irrelevant to
the whole normalized item. -/
theorem claim_C6_extract_amended :
    (∀ m : Matcher, EyelevelAPI.extractFromDesc none m = none ∧
      EyelevelAPI.extractFromDesc (some "") m = none) ∧
    (∀ (m : Matcher) (s : String), s ≠ "" → m s = none →
      EyelevelAPI.extractFromDesc (some s) m = none) ∧
    (∀ (m : Matcher) (s g : String), s ≠ "" → m s = some g → g ≠ "" →
      EyelevelAPI.extractFromDesc (some s) m = some g) ∧
    (∀ (m : Matcher) (s : String), s ≠ "" → m s = some "" →
      EyelevelAPI.extractFromDesc (some s) m = none) ∧
    (∀ (d : Option String) (m : Matcher),
      LlamaCloudAPI.extractFromDesc d m = EyelevelAPI.extractFromDesc d m) ∧
    (∀ (p q : Matcher) (it : RawLineItem), strTruthy it.project_number = true →
      EyelevelAPI.normalizeLineItem p it = EyelevelAPI.normalizeLineItem q it) ∧
    (∀ (p : Matcher) (it : RawLineItem), strTruthy it.project_number = false →
      (EyelevelAPI.normalizeLineItem p it).project_number =
        EyelevelAPI.extractFromDesc it.description p) ∧
    (∀ (p q a : Matcher) (it : RawLineItem), strTruthy it.project_number = true →
      LlamaCloudAPI.normalizeLineItem p a it = LlamaCloudAPI.normalizeLineItem q a it) ∧
    (∀ (p a b : Matcher) (it : RawLineItem), strTruthy it.activity_code = true →
      LlamaCloudAPI.normalizeLineItem p a it = LlamaCloudAPI.normalizeLineItem p b it) ∧
    (∀ (p a : Matcher) (it : RawLineItem), strTruthy it.project_number = false →
      (LlamaCloudAPI.normalizeLineItem p a it).project_number =
        LlamaCloudAPI.extractFromDesc it.description p) ∧
    (∀ (p a : Matcher) (it : RawLineItem), strTruthy it.activity_code = false →
      (LlamaCloudAPI.normalizeLineItem p a it).activity_code =
        LlamaCloudAPI.extractFromDesc it.description a) := by
  refine ⟨?_, ?_, ?_, ?_, ?_, ?_, ?_, ?_, ?_, ?_, ?_⟩
  · intro m
    exact ⟨rfl, by simp [EyelevelAPI.extractFromDesc]⟩
  · intro m s hs hm
    simp [EyelevelAPI.extractFromDesc, hs, hm]
  · intro m s g hs hm hg
    simp [EyelevelAPI.extractFromDesc, hs, hm, hg]
  · intro m s hs hm
    simp [EyelevelAPI.extractFromDesc, hs, hm]
  · intro d m
    rfl
  · intro p q it h
    cases hp : it.project_number with
    | none => simp [strTruthy, hp] at h
    | some s =>
      by_cases hs : s = ""
      · simp [strTruthy, hp, hs] at h
      · simp [EyelevelAPI.normalizeLineItem, orElseStr, hp, hs]
  · intro p it h
    cases hp : it.project_number with
    | none => simp [EyelevelAPI.normalizeLineItem, orElseStr, hp]
    | some s =>
      by_cases hs : s = ""
      · simp [EyelevelAPI.normalizeLineItem, orElseStr, hp, hs]
      · simp [strTruthy, hp, hs] at h
  · intro p q a it h
    cases hp : it.project_number with
    | none => simp [strTruthy, hp] at h
    | some s =>
      by_cases hs : s = ""
      · simp [strTruthy, hp, hs] at h
      · simp [LlamaCloudAPI.normalizeLineItem, orElseStr, hp, hs]
  · intro p a b it h
    cases ha : it.activity_code with
    | none => simp [strTruthy, ha] at h
    | some s =>
      by_cases hs : s = ""
      · simp [strTruthy, ha, hs] at h
      · simp [LlamaCloudAPI.normalizeLineItem, orElseStr, ha, hs]
  · intro p a it h
    cases hp : it.project_number with
    | none => simp [LlamaCloudAPI.normalizeLineItem, orElseStr, hp]
    | some s =>
      by_cases hs : s = ""
      · simp [LlamaCloudAPI.normalizeLineItem, orElseStr, hp, hs]
      · simp [strTruthy, hp, hs] at h
  · intro p a it h
    cases ha : it.activity_code with
    | none => simp [LlamaCloudAPI.normalizeLineItem, orElseStr, ha]
    | some s =>
      by_cases hs : s = ""
      · simp [LlamaCloudAPI.normalizeLineItem, orElseStr, ha, hs]
      · simp [strTruthy, ha, hs] at h

/-- Witness for the amended C6 at a concrete description and matcher. -/
theorem claim_C6_witness :
    EyelevelAPI.extractFromDesc (some "PN: 123") (fun _ => some "123") = some "123" :=
  claim_C6_extract_amended.2.2.1 (fun _ => some "123") "PN: 123" "123"
    (by decide) rfl (by decide)

/-- C3 (fallback procedure, modelled from the spec because the
server-side `parse_invoice` is not under `src/`): the primary vendor
(LlamaCloud) is always called first; the secondary vendor (Eyelevel) is
called exactly when the primary call throws or returns an unusable
shape, and at most once; the stored result records which vendor
produced it (and `displayInvoiceDetails` labels `LlamaCloud` as
`Primary` and `Eyelevel` as `Fallback`). -/
theorem claim_C3_fallback_order (pr ac pn : Matcher)
    (p : VendorOutcome RawLlamaInvoice) (s : VendorOutcome RawEyelevelInvoice) :
    (fallbackVendorCalls p).head? = some ParserUsed.llamaCloud ∧
    (ParserUsed.eyelevel ∈ fallbackVendorCalls p ↔
      (p = VendorOutcome.thrown ∨ p = VendorOutcome.unusable)) ∧
    (fallbackVendorCalls p).count ParserUsed.eyelevel ≤ 1 ∧
    (∀ d, p = VendorOutcome.ok d →
      parseInvoiceWithFallback pr ac pn p s =
        some (LlamaCloudAPI.normalizeInvoice pr ac d, ParserUsed.llamaCloud)) ∧
    (∀ e, (p = VendorOutcome.thrown ∨ p = VendorOutcome.unusable) →
      s = VendorOutcome.ok e →
      parseInvoiceWithFallback pr ac pn p s =
        some (EyelevelAPI.normalizeInvoice pn e, ParserUsed.eyelevel)) ∧
    ((p = VendorOutcome.thrown ∨ p = VendorOutcome.unusable) →
      (s = VendorOutcome.thrown ∨ s = VendorOutcome.unusable) →
      parseInvoiceWithFallback pr ac pn p s = none) ∧
    parserBadge "LlamaCloud" = some "Primary" ∧
    parserBadge "Eyelevel" = some "Fallback" := by
  refine ⟨?_, ?_, ?_, ?_, ?_, ?_, rfl, rfl⟩
  · cases p <;> rfl
  · cases p <;> simp [fallbackVendorCalls]
  · cases p <;> simp [fallbackVendorCalls]
  · intro d h
    subst h
    rfl
  · rintro e (h | h) hs <;> subst h <;> subst hs <;> rfl
  · rintro (h | h) (hs | hs) <;> subst h <;> subst hs <;> rfl

/-- Witness for C3: with a thrown primary call and a usable secondary
response, the Eyelevel normalizer is used and recorded. -/
theorem claim_C3_witness :
    parseInvoiceWithFallback (fun _ => none) (fun _ => none) (fun _ => none)
      VendorOutcome.thrown
      (VendorOutcome.ok ⟨none, none, none, none, none, none⟩) =
      some (EyelevelAPI.normalizeInvoice (fun _ => none)
        ⟨none, none, none, none, none, none⟩, ParserUsed.eyelevel) :=
  (claim_C3_fallback_order (fun _ => none) (fun _ => none) (fun _ => none)
      VendorOutcome.thrown
      (VendorOutcome.ok ⟨none, none, none, none, none, none⟩)).2.2.2.2.1
    ⟨none, none, none, none, none, none⟩ (Or.inl rfl) rfl

/-- C10: `ZohoAPI.createVendorBill` rejects every falsy invoice id
(`null`, `undefined`, `0`, empty string) with
`Invoice ID is required` and sends no request; the UI-level
`createVendorBill` likewise shows `No invoice selected.` and stops
without a request when no current invoice is selected; a
create-vendor-bill request goes out only for a truthy id. -/
theorem claim_C10_bill_requires_id (i : JSPrim) :
    (i.truthy = false ↔
      (i = JSPrim.jNull ∨ i = JSPrim.jUndef ∨ i = JSPrim.jNum 0 ∨ i = JSPrim.jStr "")) ∧
    (i.truthy = false →
      ZohoAPI.createVendorBill i =
        { requestSent := false, rejection := some "Invoice ID is required" } ∧
      createVendorBillUI i =
        [UIEffect.showVendorBillStatus "error" "No invoice selected."]) ∧
    ((ZohoAPI.createVendorBill i).requestSent = true → i.truthy = true) ∧
    (UIEffect.fetchCreateVendorBill ∈ createVendorBillUI i → i.truthy = true) := by
  refine ⟨?_, ?_, ?_, ?_⟩
  · cases i with
    | jNull => simp [JSPrim.truthy]
    | jUndef => simp [JSPrim.truthy]
    | jNum n => by_cases h : n = 0 <;> simp [JSPrim.truthy, h]
    | jStr s => by_cases h : s = "" <;> simp [JSPrim.truthy, h]
  · intro h
    exact ⟨by simp [ZohoAPI.createVendorBill, h], by simp [createVendorBillUI, h]⟩
  · intro h
    by_cases ht : i.truthy = true
    · exact ht
    · simp only [Bool.not_eq_true] at ht
      simp [ZohoAPI.createVendorBill, ht] at h
  · intro h
    by_cases ht : i.truthy = true
    · exact ht
    · simp only [Bool.not_eq_true] at ht
      simp [createVendorBillUI, ht] at h

/-- Witness for C10 at the falsy id `0`. -/
theorem claim_C10_witness :
    ZohoAPI.createVendorBill (JSPrim.jNum 0) =
      { requestSent := false, rejection := some "Invoice ID is required" } :=
  ((claim_C10_bill_requires_id (JSPrim.jNum 0)).2.1 (by decide)).1

/-- A fired or cleared timeout never fires again: the timeout event is
a no-op once `timeoutActive` is `false`. -/
theorem pollStep_timeout_inactive (s : PollState) (h : s.timeoutActive = false) :
    pollStep s PollEvent.timeoutFire = s := by
  simp [pollStep, h]

/-- Once both the interval and the timeout have been cleared, every
further event leaves the state unchanged. -/
theorem pollStep_stopped (s : PollState) (hi : s.intervalActive = false)
    (ht : s.timeoutActive = false) (e : PollEvent) : pollStep s e = s := by
  cases e with
  | timeoutFire => simp [pollStep, ht]
  | tick r => simp [pollStep, hi]

/-- The poll loop clears the interval and the timeout together: one
step preserves `intervalActive = timeoutActive`. -/
theorem pollStep_active_eq (s : PollState) (e : PollEvent)
    (h : s.intervalActive = s.timeoutActive) :
    (pollStep s e).intervalActive = (pollStep s e).timeoutActive := by
  cases e with
  | timeoutFire =>
    by_cases ht : s.timeoutActive = true
    · simp [pollStep, ht]
    · simp only [Bool.not_eq_true] at ht
      simp [pollStep, ht, h]
  | tick r =>
    by_cases hi : s.intervalActive = true
    · cases r with
      | none => simp [pollStep, hi, h ▸ hi]
      | some st =>
        by_cases h1 : st = "parsed" ∨ st = "completed"
        · simp [pollStep, hi, h1]
        · by_cases h2 : st = "error"
          · simp [pollStep, hi, h1, h2]
          · by_cases h3 : maxPolls ≤ s.pollCount + 1
            · simp [pollStep, hi, h1, h2, h3]
            · simp [pollStep, hi, h1, h2, h3, h ▸ hi]
    · simp only [Bool.not_eq_true] at hi
      simp [pollStep, hi, h.symm.trans hi]

/-- `intervalActive = timeoutActive` along any run of the poll loop. -/
theorem foldPoll_active_eq (es : List PollEvent) (s : PollState)
    (h : s.intervalActive = s.timeoutActive) :
    (es.foldl pollStep s).intervalActive = (es.foldl pollStep s).timeoutActive := by
  induction es generalizing s with
  | nil => exact h
  | cons e es ih => exact ih (pollStep s e) (pollStep_active_eq s e h)

/-- The invariant `intervalActive = timeoutActive` holds in every state
the poll loop reaches from its initial state. -/
theorem runPoll_active_eq (es : List PollEvent) :
    (runPoll es).intervalActive = (runPoll es).timeoutActive :=
  foldPoll_active_eq es initialPollState rfl

/-- Bounded polling: along a run whose fetches all succeed, an active
loop has made fewer than `maxPolls` polls. -/
theorem foldPoll_bound (es : List PollEvent) (s : PollState)
    (hok : ∀ e ∈ es, e ≠ PollEvent.tick none)
    (h : s.intervalActive = true → s.pollCount < maxPolls) :
    (es.foldl pollStep s).intervalActive = true →
      (es.foldl pollStep s).pollCount < maxPolls := by
  induction es generalizing s with
  | nil => exact h
  | cons e es ih =>
    refine ih (pollStep s e) (fun x hx => hok x (List.mem_cons_of_mem e hx)) ?_
    intro hact
    cases e with
    | timeoutFire =>
      by_cases ht : s.timeoutActive = true
      · simp [pollStep, ht] at hact
      · simp only [Bool.not_eq_true] at ht
        rw [pollStep_timeout_inactive s ht] at hact ⊢
        exact h hact
    | tick r =>
      cases r with
      | none => exact absurd rfl (hok (PollEvent.tick none) (List.mem_cons_self _ _))
      | some st =>
        by_cases hi : s.intervalActive = true
        · by_cases h1 : st = "parsed" ∨ st = "completed"
          · simp [pollStep, hi, h1] at hact
          · by_cases h2 : st = "error"
            · simp [pollStep, hi, h1, h2] at hact
            · by_cases h3 : maxPolls ≤ s.pollCount + 1
              · simp [pollStep, hi, h1, h2, h3] at hact
              · simp only [pollStep, hi, if_true, h1, if_false, h2, h3]
                simpa using Nat.lt_of_not_le h3
        · simp only [Bool.not_eq_true] at hi
          simp [pollStep, hi] at hact

/-- C4: after a successful upload whose response is not already
`parsed`, `handleInvoiceUpload` starts the 3-second status poll loop
(constants `pollIntervalMs`, `processingTimeoutMs`, `maxPolls` as in
the source), and the loop always stops: by the time the 60-second
timeout fires the interval is cleared; a stopped loop ignores all
further events; while active, an observed `parsed`/`completed` status
stops it with the parse step complete, an observed `error` status stops
it with the parse step in error, reaching `maxPolls` stops it with the
parse step in error; and a loop whose fetches all succeed never stays
active beyond `maxPolls` polls. -/
theorem claim_C4_poll_loop :
    pollIntervalMs = 3000 ∧ processingTimeoutMs = 60000 ∧ maxPolls = 20 ∧
    (∀ d : UploadResp, handleUploadResponse d = UploadDispatch.startPolling ↔
      (d.success = true ∧
        ∀ inv, d.invoice_data = some inv → inv.status ≠ some "parsed")) ∧
    (∀ es, (runPoll (es ++ [PollEvent.timeoutFire])).intervalActive = false ∧
      (runPoll (es ++ [PollEvent.timeoutFire])).timeoutActive = false) ∧
    (∀ es e, (runPoll es).intervalActive = false →
      pollStep (runPoll es) e = runPoll es) ∧
    (∀ s : PollState, s.intervalActive = true →
      ((pollStep s (PollEvent.tick (some "parsed"))).parseStep = "complete" ∧
       (pollStep s (PollEvent.tick (some "parsed"))).intervalActive = false ∧
       (pollStep s (PollEvent.tick (some "parsed"))).timeoutActive = false) ∧
      ((pollStep s (PollEvent.tick (some "completed"))).parseStep = "complete" ∧
       (pollStep s (PollEvent.tick (some "completed"))).intervalActive = false) ∧
      ((pollStep s (PollEvent.tick (some "error"))).parseStep = "error" ∧
       (pollStep s (PollEvent.tick (some "error"))).intervalActive = false)) ∧
    (∀ s : PollState, s.timeoutActive = true →
      (pollStep s PollEvent.timeoutFire).parseStep = "error" ∧
      (pollStep s PollEvent.timeoutFire).intervalActive = false) ∧
    (∀ (s : PollState) (st : String), s.intervalActive = true →
      ¬(st = "parsed" ∨ st = "completed") → st ≠ "error" →
      maxPolls ≤ s.pollCount + 1 →
      (pollStep s (PollEvent.tick (some st))).intervalActive = false ∧
      (pollStep s (PollEvent.tick (some st))).parseStep = "error") ∧
    (∀ es, (∀ e ∈ es, e ≠ PollEvent.tick none) →
      (runPoll es).intervalActive = true → (runPoll es).pollCount < maxPolls) := by
  refine ⟨rfl, rfl, rfl, ?_, ?_, ?_, ?_, ?_, ?_, ?_⟩
  · intro d
    obtain ⟨suc, inv⟩ := d
    cases suc with
    | false => simp [handleUploadResponse]
    | true =>
      cases inv with
      | none => simp [handleUploadResponse]
      | some i =>
        by_cases h : i.status = some "parsed" <;>
          simp [handleUploadResponse, h]
  · intro es
    have hrw : runPoll (es ++ [PollEvent.timeoutFire]) =
        pollStep (runPoll es) PollEvent.timeoutFire := by
      simp [runPoll, List.foldl_append]
    by_cases ht : (runPoll es).timeoutActive = true
    · rw [hrw]
      simp [pollStep, ht]
    · simp only [Bool.not_eq_true] at ht
      rw [hrw, pollStep_timeout_inactive _ ht]
      exact ⟨(runPoll_active_eq es).trans ht, ht⟩
  · intro es e h
    exact pollStep_stopped (runPoll es) h ((runPoll_active_eq es).symm.trans h) e
  · intro s h
    refine ⟨⟨?_, ?_, ?_⟩, ⟨?_, ?_⟩, ⟨?_, ?_⟩⟩ <;> simp [pollStep, h]
  · intro s h
    constructor <;> simp [pollStep, h]
  · intro s st hi h1 h2 h3
    constructor <;> simp [pollStep, hi, h1, h2, h3]
  · intro es hok
    exact foldPoll_bound es initialPollState hok (fun _ => by simp [initialPollState, maxPolls])

/-- Witness for C4: from the initial poll state, one tick observing
`parsed` marks the parse step complete and stops the loop. -/
theorem claim_C4_witness :
    (pollStep initialPollState (PollEvent.tick (some "parsed"))).parseStep = "complete" ∧
    (pollStep initialPollState (PollEvent.tick (some "parsed"))).intervalActive = false := by
  have h := claim_C4_poll_loop
  obtain ⟨-, -, -, -, -, -, hstop, -⟩ := h
  exact ⟨(hstop initialPollState rfl).1.1, (hstop initialPollState rfl).1.2.1⟩

end InvoiceParser
